import Mathlib

/-!
Verification of the GDTOT file-relay bot (Telegram ↔ Wasabi S3 storage).

This file gives a shallow embedding of the repository's transfer pipeline:

* `wasabi_client.py` — `upload_from_stream`, `_multipart_upload`,
  `download_to_stream`, `generate_download_url`, `delete_file`,
  `get_file_info`;
* `utils.py` — `is_file_too_large`, `generate_file_name`;
* `bot.py` — `handle_media_files`, `ProgressTracker.update_progress`,
  `ProgressTracker._format_time_remaining`;
* `telegram_bot.py` — `handle_direct_upload`;
* `config.py` — `Config.validate_config` and the import-time validation.

External I/O (the Telegram transport and the S3 SDK's wire calls) is modelled
by outcome scripts: each point where the Python code awaits an external call
takes the call's outcome (success value or raised exception) as an explicit
input, and the embedding records the sequence of store-side calls the code
performs as a trace of events.  Configuration values (`CHUNK_SIZE`,
`MAX_FILE_SIZE`, …) are parameters, since `config.py` reads them from the
environment.

Two defects in the handler modules shape the models: `bot.py`'s
`handle_media_files` evaluates `self._format_size` at line 421 although
`self` is not defined in that module-level function, so every supported
media message raises `NameError` into the catch-all reply of line 522; and
`telegram_bot.py` uses `io.BytesIO` at line 142 without ever importing
`io`, so the fully buffered download is never streamed to the store.
-/

namespace GDTOT

/-! ## Multipart upload model (`wasabi_client.py`, lines 26-109)

`_multipart_upload` loops: `chunk = await file_stream.read(CHUNK_SIZE)`;
`if not chunk: break`; `upload_part(...)`; collect `{'ETag', 'PartNumber'}`;
`part_number += 1`.  On normal loop exit it calls `complete_multipart_upload`
with the collected parts; on any exception inside the `try` it calls
`abort_multipart_upload` once and re-raises.

A `ChunkStep` is the outcome of one loop iteration:
* `ok size` — the read returns a chunk of `size` bytes (``size = 0`` models an
  empty read, which breaks the loop) and, if non-empty, its `upload_part`
  succeeds;
* `readErr` — `file_stream.read` raises;
* `uploadErr size` — the read returns `size` bytes but `upload_part` raises
  (``size = 0`` again breaks the loop before any upload is attempted). -/

inductive ChunkStep where
  | ok (size : Nat)
  | readErr
  | uploadErr (size : Nat)
deriving DecidableEq, Repr

/-- One entry of the `parts` list collected by `_multipart_upload`
(the Python dict `{'ETag': ..., 'PartNumber': part_number}` together with the
chunk's byte length). -/
structure Part where
  partNumber : Nat
  size : Nat
deriving DecidableEq, Repr

/-- A store-side call performed by `upload_from_stream` / `_multipart_upload`. -/
inductive Event where
  | createMPU
  | uploadPart (partNumber size : Nat)
  | completeMPU (parts : List Part)
  | abortMPU
  | putObject (size : Nat)
deriving DecidableEq, Repr

def Event.isAbort : Event → Bool
  | .abortMPU => true
  | _ => false

def Event.isComplete : Event → Bool
  | .completeMPU _ => true
  | _ => false

def Event.isCreate : Event → Bool
  | .createMPU => true
  | _ => false

def Event.isPut : Event → Bool
  | .putObject _ => true
  | _ => false

def Event.isPart : Event → Bool
  | .uploadPart _ _ => true
  | _ => false

/-- The `while True` loop of `_multipart_upload` (lines 72-90): `pn` is
`part_number`, `acc` is the accumulated `parts` list.  Returns the
`upload_part` events performed plus either the final parts list (normal
`break`) or an error (a raised exception escaping the loop). -/
def uploadLoop : List ChunkStep → Nat → List Part → List Event × Except Unit (List Part)
  | [], _, acc => ([], .ok acc)
  | .ok 0 :: _, _, acc => ([], .ok acc)
  | .ok (s + 1) :: rest, pn, acc =>
      let r := uploadLoop rest (pn + 1) (acc ++ [⟨pn, s + 1⟩])
      (.uploadPart pn (s + 1) :: r.1, r.2)
  | .readErr :: _, _, _ => ([], .error ())
  | .uploadErr 0 :: _, _, acc => ([], .ok acc)
  | .uploadErr (_ + 1) :: _, _, _ => ([], .error ())

/-- Model of `_multipart_upload` (lines 58-109): `create_multipart_upload`, then the
chunk loop; `complete_multipart_upload(parts)` on success, or
`abort_multipart_upload` followed by re-raising on any exception. -/
def multipartUpload (script : List ChunkStep) : List Event × Except Unit Unit :=
  match uploadLoop script 1 [] with
  | (evts, .ok parts) => (Event.createMPU :: evts ++ [Event.completeMPU parts], .ok ())
  | (evts, .error ()) => (Event.createMPU :: evts ++ [Event.abortMPU], .error ())

/-- Total number of bytes read from the source stream by the chunk loop
(the sizes of all chunks `file_stream.read` returned, including a final empty
read contributing 0 bytes). -/
def readBytes : List ChunkStep → Nat
  | [] => 0
  | .ok 0 :: _ => 0
  | .ok (s + 1) :: rest => (s + 1) + readBytes rest
  | .readErr :: _ => 0
  | .uploadErr 0 :: _ => 0
  | .uploadErr (s + 1) :: _ => s + 1

theorem uploadLoop_events_isPart (script : List ChunkStep) :
    ∀ (pn : Nat) (acc : List Part), ∀ e ∈ (uploadLoop script pn acc).1, e.isPart = true := by
  induction script with
  | nil => intro pn acc e he; simp [uploadLoop] at he
  | cons head rest ih =>
    intro pn acc e he
    match head with
    | .ok 0 => simp [uploadLoop] at he
    | .ok (s + 1) =>
        simp only [uploadLoop, List.mem_cons] at he
        rcases he with rfl | he
        · rfl
        · exact ih _ _ e he
    | .readErr => simp [uploadLoop] at he
    | .uploadErr 0 => simp [uploadLoop] at he
    | .uploadErr (s + 1) => simp [uploadLoop] at he

theorem uploadLoop_ok_spec (script : List ChunkStep) :
    ∀ (pn : Nat) (acc parts : List Part), (uploadLoop script pn acc).2 = .ok parts →
      ∃ extra : List Part,
        parts = acc ++ extra ∧
        extra.map Part.partNumber = List.range' pn extra.length ∧
        (extra.map Part.size).sum = readBytes script ∧
        ∀ p ∈ extra, 1 ≤ p.size := by
  induction script with
  | nil =>
    intro pn acc parts h
    simp only [uploadLoop, Except.ok.injEq] at h
    exact ⟨[], by simp [← h, readBytes]⟩
  | cons head rest ih =>
    intro pn acc parts h
    match head with
    | .ok 0 =>
        simp only [uploadLoop, Except.ok.injEq] at h
        exact ⟨[], by simp [← h, readBytes]⟩
    | .ok (s + 1) =>
        simp only [uploadLoop] at h
        obtain ⟨extra, hparts, hnums, hsum, hpos⟩ := ih (pn + 1) (acc ++ [⟨pn, s + 1⟩]) parts h
        refine ⟨⟨pn, s + 1⟩ :: extra, ?_, ?_, ?_, ?_⟩
        · simpa using hparts
        · simpa [List.range'] using hnums
        · simp [readBytes, hsum]
        · intro p hp
          rcases List.mem_cons.mp hp with rfl | hp
          · simp
          · exact hpos p hp
    | .readErr => simp [uploadLoop] at h
    | .uploadErr 0 =>
        simp only [uploadLoop, Except.ok.injEq] at h
        exact ⟨[], by simp [← h, readBytes]⟩
    | .uploadErr (s + 1) => simp [uploadLoop] at h

theorem uploadLoop_error_iff (script : List ChunkStep) :
    ∀ (pn : Nat) (acc : List Part), (uploadLoop script pn acc).2 = .error () ↔
      ¬ ∃ parts, (uploadLoop script pn acc).2 = .ok parts := by
  intro pn acc
  match h : (uploadLoop script pn acc).2 with
  | .ok parts => simp [h]
  | .error () => simp [h]

/-- Claim C2: if the multipart session is created and some chunk read or
upload raises (the run returns an error), then the produced call trace
contains exactly one `abort_multipart_upload` and zero
`complete_multipart_upload` calls, the abort occurring before the exception
is re-raised to the caller. -/
theorem multipart_abort_on_failure (script : List ChunkStep)
    (h : (multipartUpload script).2 = .error ()) :
    (multipartUpload script).1.countP Event.isAbort = 1 ∧
    (multipartUpload script).1.countP Event.isComplete = 0 := by
  unfold multipartUpload at *
  match hL : uploadLoop script 1 [] with
  | (evts, .ok parts) => simp [hL] at h
  | (evts, .error ()) =>
    have hev : ∀ e ∈ evts, e.isPart = true := by
      intro e he
      have := uploadLoop_events_isPart script 1 [] e
      rw [hL] at this
      exact this he
    simp only [hL, List.countP_cons, List.countP_append]
    constructor
    · have h0 : evts.countP Event.isAbort = 0 := by
        rw [List.countP_eq_zero]
        intro e he
        have := hev e he
        cases e <;> simp_all [Event.isPart, Event.isAbort]
      simp [h0, Event.isAbort, List.countP_cons]
    · have h0 : evts.countP Event.isComplete = 0 := by
        rw [List.countP_eq_zero]
        intro e he
        have := hev e he
        cases e <;> simp_all [Event.isPart, Event.isComplete]
      simp [h0, Event.isComplete, List.countP_cons]

/-- Witness for C2: a concrete failing script (the very first read raises)
produces exactly one abort and no completion. -/
theorem multipart_abort_on_failure_witness :
    (multipartUpload [ChunkStep.readErr]).1.countP Event.isAbort = 1 ∧
    (multipartUpload [ChunkStep.readErr]).1.countP Event.isComplete = 0 :=
  multipart_abort_on_failure [ChunkStep.readErr] rfl

/-- Claim C3: on every successful chunked upload, the parts list passed to
`complete_multipart_upload` carries part numbers exactly `1..N` in strictly
ascending order with no gaps or duplicates (`N` = number of non-empty chunks,
each part non-empty), and the sum of the uploaded parts' byte lengths equals
the total number of bytes read from the source stream. -/
theorem multipart_complete_parts_spec (script : List ChunkStep) (parts : List Part)
    (h : Event.completeMPU parts ∈ (multipartUpload script).1) :
    parts.map Part.partNumber = List.range' 1 parts.length ∧
    (parts.map Part.size).sum = readBytes script ∧
    ∀ p ∈ parts, 1 ≤ p.size := by
  unfold multipartUpload at h
  match hL : uploadLoop script 1 [] with
  | (evts, .ok parts') =>
    rw [hL] at h
    have hev : ∀ e ∈ evts, e.isPart = true := by
      intro e he
      have := uploadLoop_events_isPart script 1 [] e
      rw [hL] at this
      exact this he
    rcases List.mem_cons.mp h with h | h
    · exact absurd h (by simp)
    rcases List.mem_append.mp h with h | h
    · have := hev _ h
      simp [Event.isPart] at this
    · have h' := List.mem_singleton.mp h
      have hparts : parts = parts' := by injection h'
      subst hparts
      obtain ⟨extra, hp, hnums, hsum, hpos⟩ :=
        uploadLoop_ok_spec script 1 [] parts (by rw [hL])
      simp only [List.nil_append] at hp
      subst hp
      exact ⟨hnums, hsum, hpos⟩
  | (evts, .error ()) =>
    rw [hL] at h
    have hev : ∀ e ∈ evts, e.isPart = true := by
      intro e he
      have := uploadLoop_events_isPart script 1 [] e
      rw [hL] at this
      exact this he
    rcases List.mem_cons.mp h with h | h
    · exact absurd h (by simp)
    rcases List.mem_append.mp h with h | h
    · have := hev _ h
      simp [Event.isPart] at this
    · have h' := List.mem_singleton.mp h
      exact absurd h' (by simp)

/-- Witness for C3: a concrete successful two-chunk upload completes with
parts numbered `[1, 2]` and byte total `2 + 3 = 5`. -/
theorem multipart_complete_parts_spec_witness :
    ([⟨1, 2⟩, ⟨2, 3⟩] : List Part).map Part.partNumber =
        List.range' 1 ([⟨1, 2⟩, ⟨2, 3⟩] : List Part).length ∧
    (([⟨1, 2⟩, ⟨2, 3⟩] : List Part).map Part.size).sum =
        readBytes [ChunkStep.ok 2, ChunkStep.ok 3] ∧
    ∀ p ∈ ([⟨1, 2⟩, ⟨2, 3⟩] : List Part), 1 ≤ p.size :=
  multipart_complete_parts_spec [ChunkStep.ok 2, ChunkStep.ok 3] [⟨1, 2⟩, ⟨2, 3⟩] (by decide)

/-! ## Size routing (`wasabi_client.py`, `upload_from_stream`, lines 26-56)

`upload_from_stream(file_stream, file_size, object_name)` branches on
`if file_size > config.CHUNK_SIZE`: multipart for large files, otherwise
`file_data = await file_stream.read()` followed by a single `put_object`.
An unknown size is the Python value `None`; evaluating `None > config.CHUNK_SIZE`
raises a `TypeError` before any store call, which (re-raised by the handler's
`except`) propagates to the caller — there is no unknown-size default. -/

/-- The single-shot path's full `file_stream.read()`: total bytes of the
stream, or an error if a read raises.  (`uploadErr` entries only describe an
`upload_part` outcome, which the single-shot path never performs, so their
chunk still counts as successfully read bytes.) -/
def readAll : List ChunkStep → Except Unit Nat
  | [] => .ok 0
  | .ok 0 :: _ => .ok 0
  | .ok (s + 1) :: rest =>
      match readAll rest with
      | .ok t => .ok (s + 1 + t)
      | .error e => .error e
  | .readErr :: _ => .error ()
  | .uploadErr 0 :: _ => .ok 0
  | .uploadErr (s + 1) :: rest =>
      match readAll rest with
      | .ok t => .ok (s + 1 + t)
      | .error e => .error e

/-- Model of `upload_from_stream` (lines 26-56): `fileSize = none` models
`file_size is None`, on which the comparison `file_size > config.CHUNK_SIZE`
raises `TypeError` before any store call. -/
def uploadFromStream (chunkSize : Nat) (fileSize : Option Nat)
    (script : List ChunkStep) : List Event × Except Unit Unit :=
  match fileSize with
  | none => ([], .error ())
  | some n =>
      if n > chunkSize then multipartUpload script
      else
        match readAll script with
        | .ok total => ([Event.putObject total], .ok ())
        | .error () => ([], .error ())

/-- Counterexample to claim C4: for an upload whose size is unknown
(`file_size is None`, threshold 100), the code does not take the chunked
multipart path — no multipart session is created and a `TypeError`
propagates instead. -/
theorem upload_unknown_size_not_chunked :
    (uploadFromStream 100 none [ChunkStep.ok 5]).1.countP Event.isCreate = 0 ∧
    (uploadFromStream 100 none [ChunkStep.ok 5]).2 = Except.error () := by
  constructor <;> rfl

/-- Claim C4 (amended): for a known size at most the threshold,
`upload_from_stream` takes the single-shot path — no multipart session is
created, and on success exactly one `put_object` is issued; for a known size
exceeding the threshold it takes the multipart path — the session is created
exactly once and no `put_object` is issued; for an unknown size (`None`) the
size comparison raises and neither path runs. -/
theorem upload_routing (chunkSize n : Nat) (script : List ChunkStep) :
    (n ≤ chunkSize →
      (uploadFromStream chunkSize (some n) script).1.countP Event.isCreate = 0 ∧
      ((uploadFromStream chunkSize (some n) script).2 = .ok () →
        (uploadFromStream chunkSize (some n) script).1.countP Event.isPut = 1)) ∧
    (chunkSize < n →
      (uploadFromStream chunkSize (some n) script).1.countP Event.isCreate = 1 ∧
      (uploadFromStream chunkSize (some n) script).1.countP Event.isPut = 0) ∧
    uploadFromStream chunkSize none script = ([], .error ()) := by
  refine ⟨?_, ?_, rfl⟩
  · intro hle
    have hnot : ¬ n > chunkSize := Nat.not_lt.mpr hle
    simp only [uploadFromStream, if_neg hnot]
    match hR : readAll script with
    | .ok total => simp [Event.isCreate, Event.isPut]
    | .error () => simp
  · intro hlt
    simp only [uploadFromStream, if_pos hlt]
    unfold multipartUpload
    match hL : uploadLoop script 1 [] with
    | (evts, .ok parts) =>
      have hev : ∀ e ∈ evts, e.isPart = true := by
        intro e he
        have := uploadLoop_events_isPart script 1 [] e
        rw [hL] at this
        exact this he
      have hc : evts.countP Event.isCreate = 0 := by
        rw [List.countP_eq_zero]
        intro e he
        have := hev e he
        cases e <;> simp_all [Event.isPart, Event.isCreate]
      have hp : evts.countP Event.isPut = 0 := by
        rw [List.countP_eq_zero]
        intro e he
        have := hev e he
        cases e <;> simp_all [Event.isPart, Event.isPut]
      simp [List.countP_cons, List.countP_append, hc, hp, Event.isCreate, Event.isPut]
    | (evts, .error ()) =>
      have hev : ∀ e ∈ evts, e.isPart = true := by
        intro e he
        have := uploadLoop_events_isPart script 1 [] e
        rw [hL] at this
        exact this he
      have hc : evts.countP Event.isCreate = 0 := by
        rw [List.countP_eq_zero]
        intro e he
        have := hev e he
        cases e <;> simp_all [Event.isPart, Event.isCreate]
      have hp : evts.countP Event.isPut = 0 := by
        rw [List.countP_eq_zero]
        intro e he
        have := hev e he
        cases e <;> simp_all [Event.isPart, Event.isPut]
      simp [List.countP_cons, List.countP_append, hc, hp, Event.isCreate, Event.isPut]

/-- Witness for C4 (amended): size 50 with threshold 100 goes single-shot
(one `put_object`, no session); size 250 goes multipart (one session, no
`put_object`). -/
theorem upload_routing_witness :
    ((uploadFromStream 100 (some 50) [ChunkStep.ok 50]).1.countP Event.isCreate = 0 ∧
      ((uploadFromStream 100 (some 50) [ChunkStep.ok 50]).2 = .ok () →
        (uploadFromStream 100 (some 50) [ChunkStep.ok 50]).1.countP Event.isPut = 1)) ∧
    ((uploadFromStream 100 (some 250) [ChunkStep.ok 100]).1.countP Event.isCreate = 1 ∧
      (uploadFromStream 100 (some 250) [ChunkStep.ok 100]).1.countP Event.isPut = 0) :=
  ⟨(upload_routing 100 50 [ChunkStep.ok 50]).1 (by decide),
   ((upload_routing 100 250 [ChunkStep.ok 100]).2.1 (by decide))⟩

/-! ## Destination-key generation (claim C6)

`utils.py`, `generate_file_name` (lines 18-24):
`extension = original_name.split('.')[-1] if '.' in original_name else 'bin'`
and the key is `f"{uuid.uuid4()}_{int(time.time())}.{extension}"`.  The
random identifier and timestamp are modelled as explicit inputs.

`bot.py`, `handle_media_files` (line 460):
`object_name = f"user_{user_id}/{uuid.uuid4().hex}_{file_name}"` — the raw
display name is embedded unsanitized. -/

/-- Python `s.split('.')` on the character list of `s`: splits at every dot,
keeping empty pieces, and yields `[""]` for the empty string. -/
def pySplitDot : List Char → List (List Char)
  | [] => [[]]
  | c :: rest =>
      let r := pySplitDot rest
      if c = '.' then [] :: r
      else
        match r with
        | [] => [[c]]
        | h :: t => (c :: h) :: t

/-- Model of `utils.generate_file_name`, with the `uuid.uuid4()` value and
`int(time.time())` as inputs.  Mirrors Python: `split('.')[-1]` is the text
after the last dot (Python `split` never returns an empty list, so `[-1]` is
total), and the fallback extension is `"bin"`. -/
def generate_file_name (uuid : String) (timestamp : Nat) (originalName : String) : String :=
  let extension : List Char := if '.' ∈ originalName.data
    then (pySplitDot originalName.data).getLastD ['b', 'i', 'n'] else ['b', 'i', 'n']
  uuid ++ "_" ++ toString timestamp ++ "." ++ String.mk extension

/-- Model of bot.py line 460: the destination key for the pyrogram handler, with the
`uuid.uuid4().hex` value as input. -/
def mediaObjectName (userId : Nat) (uuidHex : String) (fileName : String) : String :=
  "user_" ++ toString userId ++ "/" ++ uuidHex ++ "_" ++ fileName

/-- Counterexample to claim C6: path components are not stripped from the
display name.  The name `"x.a/b"` makes `generate_file_name` emit a key
containing a path separator, and `handle_media_files` embeds `"../../etc"`
verbatim in its key — attacker-chosen filenames inject path components. -/
theorem key_generation_no_sanitization :
    generate_file_name "u" 0 "x.a/b" = "u_0.a/b" ∧
    '/' ∈ (generate_file_name "u" 0 "x.a/b").data ∧
    mediaObjectName 7 "h" "../../etc" = "user_7/h_../../etc" := by
  refine ⟨by decide, by decide, by decide⟩

/-- Claim C6 (amended): the destination key is the fresh random identifier
followed by a timestamp and the text after the display name's last dot
(`"bin"` when the name has no dot), so uploads with distinct random
identifiers of equal length always receive distinct keys; but the name is
not sanitized — path-traversal sequences and non-portable characters in the
extension part pass through into the key. -/
theorem generate_file_name_unique (u1 u2 : String) (t1 t2 : Nat) (n1 n2 : String)
    (hlen : u1.length = u2.length) (hne : u1 ≠ u2) :
    generate_file_name u1 t1 n1 ≠ generate_file_name u2 t2 n2 := by
  intro heq
  apply hne
  have hdata := congrArg String.data heq
  simp only [generate_file_name, String.data_append, List.append_assoc] at hdata
  apply String.ext
  have h1 := congrArg (List.take u1.data.length) hdata
  rwa [List.take_left, show u1.data.length = u2.data.length from hlen,
    List.take_left] at h1

/-- Witness for C6 (amended): two concrete uploads of the same display name
with distinct equal-length random identifiers get distinct keys. -/
theorem generate_file_name_unique_witness :
    generate_file_name "a" 5 "f.txt" ≠ generate_file_name "b" 5 "f.txt" :=
  generate_file_name_unique "a" "b" 5 5 "f.txt" "f.txt" rfl (by decide)

/-! ## The two chat handlers (claims C1, C5, C8)

`utils.py` lines 13-16: `is_file_too_large(size_bytes)` is
`size_bytes > config.MAX_FILE_SIZE`.

`telegram_bot.py`, `handle_direct_upload` (lines 115-176): after replying
"Processing file...", the handler checks `utils.is_file_too_large(file_size)`
and, if too large, edits the reply to
`f"❌ File too large! Maximum size is {utils.format_size(config.MAX_FILE_SIZE)}"`
and returns — before `download_media` and before any Wasabi call.  Otherwise
it edits the "Direct streaming" status and runs
`file_content = await self.client.download_media(event.message.media,
file=bytes)`, which materialises the *entire* file as one `bytes` object in
memory.  The next statement, `file_stream = io.BytesIO(file_content)`
(line 142), raises `NameError`: telegram_bot.py never imports `io`.  The
`except` at lines 173-176 edits the reply to the upload-failed text, so
`upload_from_stream` and `generate_download_url` are never reached and no
byte is ever sent to the store.  When `download_media` returns a falsy value
the handler reports "Failed to download file from Telegram." (line 171)
instead; when it raises, the same `except` reports the failure.
`format_size` is the external `humanize.naturalsize`, a function input here.

`bot.py`, `handle_media_files` (lines 389-522): the whole body sits in one
`try`.  After the media-type dispatch assigns `file_size`/`file_name`
(lines 397-419), line 421 evaluates the f-string
`f"📦 File info: {file_name} ({self._format_size(file_size)}) - {media_type}"`.
`handle_media_files` is a module-level function, so the name `self` is
undefined there and the expression raises `NameError` — before the size
check at line 424, before `message.download` at line 440 and before any
store call; the catch-all `except Exception` at lines 519-522 replies with
the generic processing-error text.  (Had line 421 been passed, line 451
evaluates `self._format_size(downloaded_size)` *inside* the download
try-block, so every completed download would raise the same `NameError` into
the no-cleanup except branch at lines 453-456; the `os.remove` cleanup at
lines 469-474, 500-505 and 510-514 is unreachable either way.) -/

/-- Model of `utils.is_file_too_large` (with `config.MAX_FILE_SIZE` as a parameter). -/
def is_file_too_large (maxFileSize sizeBytes : Nat) : Bool :=
  decide (sizeBytes > maxFileSize)

/-- Outcome of `download_media(file=bytes)` in `handle_direct_upload`: the
whole file returned as a `bytes` object, a falsy result, or a raised
exception. -/
inductive TgDownloadOutcome where
  | ok
  | noContent
  | raised
deriving DecidableEq, Repr

/-- Observable actions of the telethon handler `handle_direct_upload`.
`downloadMedia b` records that `download_media(file=bytes)` returned with
`b` bytes held in memory; `storeUpload` and `issueUrl` stand for the store
calls the handler would make through `upload_from_stream` and
`generate_download_url` — the theorems establish that no execution emits
them, since the `NameError` on `io` precedes both. -/
inductive TgEvent where
  | editMessage (text : String)
  | editStreaming
  | editUploadFailed
  | editDownloadFailedTg
  | downloadMedia (bytesBuffered : Nat)
  | storeUpload
  | issueUrl
deriving DecidableEq, Repr

/-- Model of `handle_direct_upload` (telegram_bot.py, lines 115-176): the
size gate, then `download_media(file=bytes)`.  On a truthy result the whole
file (`fileSize` bytes) sits in memory and the next line, `io.BytesIO`,
raises `NameError` (`io` is not imported), reported by the `except` at lines
173-176 (`editUploadFailed`); on a falsy result the handler reports
`editDownloadFailedTg` (line 171); on a raised download the same `except`
reports `editUploadFailed` (no retained buffer is modelled for the
incomplete download). -/
def handleDirectUpload (formatSize : Nat → String) (maxFileSize fileSize : Nat)
    (dl : TgDownloadOutcome) : List TgEvent :=
  if is_file_too_large maxFileSize fileSize then
    [TgEvent.editMessage ("❌ File too large! Maximum size is " ++ formatSize maxFileSize)]
  else
    TgEvent.editStreaming ::
    match dl with
    | .ok => [TgEvent.downloadMedia fileSize, TgEvent.editUploadFailed]
    | .noContent => [TgEvent.downloadMedia 0, TgEvent.editDownloadFailedTg]
    | .raised => [TgEvent.downloadMedia 0, TgEvent.editUploadFailed]

/-- Peak number of bytes simultaneously buffered in memory over a trace of
the telethon handler. -/
def tgPeakBuffered (evts : List TgEvent) : Nat :=
  (evts.map fun e =>
    match e with
    | TgEvent.downloadMedia b => b
    | _ => 0).foldr max 0

/-- Outcome `message.download` would have in `handle_media_files`: raising
(leaving or not leaving a partial file at `download_path`), returning with no
file there, or succeeding.  Part of the scripted inputs; the theorems show
the handler never gets far enough to consult it. -/
inductive DownloadOutcome where
  | raises (partialLeft : Bool)
  | okNoFile
  | ok
deriving DecidableEq, Repr

/-- Outcome `storage.upload_file` would have: `True`, `False`, or a raised
exception.  Scripted input, never reached. -/
inductive UploadOutcome where
  | success
  | returnsFalse
  | raised
deriving DecidableEq, Repr

/-- The scripted external outcomes of one `handle_media_files` run: file
size, storage availability, and what the download, the upload and the link
generation would do if reached. -/
structure MediaScript where
  fileSize : Nat
  storageAvailable : Bool
  download : DownloadOutcome
  upload : UploadOutcome
  urlOk : Bool
deriving DecidableEq, Repr

/-- Actions the pyrogram handler `handle_media_files` could perform; the
model shows which ones actually occur. -/
inductive BotEvent where
  | reply (text : String)
  | edit (text : String)
  | downloadStart
  | storageUpload
  | genUrl
  | removeTemp
deriving DecidableEq, Repr

/-- The catch-all failure reply of `handle_media_files` (bot.py line 522). -/
def processingErrorText : String := "❌ Processing error! Please try again."

/-- Model of `handle_media_files` (bot.py, lines 389-522) on a supported
media message (document, video, audio or photo; any other media replies
"Unsupported file type!" at line 418 and returns even earlier).  Line 421
evaluates `self._format_size(file_size)` inside an f-string, but `self` is
undefined in this module-level function, so a `NameError` is raised inside
the outer `try` before the size check, the download and every store call;
the only performed action is the catch-all reply of line 522, whatever the
configured maximum and the scripted outcomes.  No staging file is ever
created at `download_path`, so none exists when the handler returns (the
Boolean component). -/
def handleMediaFiles (_maxFileSize : Nat) (_s : MediaScript) : List BotEvent × Bool :=
  ([BotEvent.reply processingErrorText], false)

/-- Counterexample to claim C1: the bytes buffered during a transfer are not
bounded by chunk size × concurrency independent of the file size.  Already
with chunk size 1 and concurrency 1, an accepted 2-byte file peaks at 2
buffered bytes, because `download_media(file=bytes)` materialises the whole
file in memory; larger files exceed any such bound the same way. -/
theorem relay_buffer_not_bounded :
    ¬ (∀ chunkSize concurrency maxFileSize fileSize : Nat,
        tgPeakBuffered (handleDirectUpload (fun _ => "") maxFileSize fileSize
          TgDownloadOutcome.ok) ≤ chunkSize * concurrency) := by
  intro h
  exact absurd (h 1 1 10 2) (by decide)

/-- Claim C1 (amended): the pipeline buffers the whole file.  For every file
accepted by the size gate whose `download_media(file=bytes)` returns, the
telethon handler's peak in-memory buffer equals the file's total size, and
the handler never issues a store upload (the `NameError` on the missing
`io` module precedes it); the pyrogram handler stages nothing on disk — it fails
at bot.py line 421 before `message.download`, so no download starts and no
staging file exists on return.  Peak buffering therefore grows with the
file's total size instead of being bounded by chunk size × concurrency. -/
theorem relay_buffers_whole_file (formatSize : Nat → String)
    (maxFileSize fileSize : Nat) (s : MediaScript)
    (hsz : is_file_too_large maxFileSize fileSize = false) :
    tgPeakBuffered
        (handleDirectUpload formatSize maxFileSize fileSize TgDownloadOutcome.ok) =
      fileSize ∧
    TgEvent.storeUpload ∉
      handleDirectUpload formatSize maxFileSize fileSize TgDownloadOutcome.ok ∧
    BotEvent.downloadStart ∉ (handleMediaFiles maxFileSize s).1 ∧
    (handleMediaFiles maxFileSize s).2 = false := by
  refine ⟨?_, ?_, by simp [handleMediaFiles], rfl⟩
  · simp [handleDirectUpload, hsz, tgPeakBuffered]
  · simp [handleDirectUpload, hsz]

/-- Witness for C1 (amended): a concrete accepted 42-byte file peaks at
exactly 42 buffered bytes with no store upload, and a concrete pyrogram run
starts no download and leaves no staging file. -/
theorem relay_buffers_whole_file_witness :
    tgPeakBuffered (handleDirectUpload (fun _ => "") 100 42 TgDownloadOutcome.ok) = 42 ∧
    TgEvent.storeUpload ∉ handleDirectUpload (fun _ => "") 100 42 TgDownloadOutcome.ok ∧
    BotEvent.downloadStart ∉
      (handleMediaFiles 100 ⟨42, true, DownloadOutcome.ok, UploadOutcome.success, true⟩).1 ∧
    (handleMediaFiles 100 ⟨42, true, DownloadOutcome.ok, UploadOutcome.success, true⟩).2 =
      false :=
  relay_buffers_whole_file (fun _ => "") 100 42
    ⟨42, true, DownloadOutcome.ok, UploadOutcome.success, true⟩ (by decide)

/-- Counterexample to claim C5: the pyrogram handler does not reject an
oversized file with a message that includes the configured limit.  With the
maximum configured to 2 GiB and a 3 GiB file, its only user-visible reply is
the generic catch-all text produced by the `NameError` at bot.py line 421;
that text contains no digit at all, so no rendering of the 2 GiB limit
appears in it, and no size-specific rejection ever happens. -/
theorem media_reject_message_ignores_limit :
    handleMediaFiles (2 * 1024 ^ 3)
        ⟨3 * 1024 ^ 3, true, DownloadOutcome.ok, UploadOutcome.success, true⟩ =
      ([BotEvent.reply processingErrorText], false) ∧
    (∀ c ∈ processingErrorText.data, c.isDigit = false) := by
  refine ⟨rfl, by decide⟩

/-- Claim C5 (amended): a file whose size equals the configured maximum is
not classified as too large; in the telethon handler a file strictly over
the maximum is rejected before the Telegram download and before any store
call, with a message that is the fixed text followed by the formatted
configured limit; the pyrogram handler never reaches its size check — for
every supported media message, of any size, its sole reply is the generic
processing-error text, with no download and no store call. -/
theorem size_gate_spec (formatSize : Nat → String) (maxFileSize fileSize : Nat)
    (dl : TgDownloadOutcome) (s : MediaScript) :
    (is_file_too_large maxFileSize maxFileSize = false) ∧
    (fileSize > maxFileSize →
      handleDirectUpload formatSize maxFileSize fileSize dl =
        [TgEvent.editMessage
          ("❌ File too large! Maximum size is " ++ formatSize maxFileSize)] ∧
      (∀ b, TgEvent.downloadMedia b ∉ handleDirectUpload formatSize maxFileSize fileSize dl) ∧
      TgEvent.storeUpload ∉ handleDirectUpload formatSize maxFileSize fileSize dl) ∧
    ((handleMediaFiles maxFileSize s).1 = [BotEvent.reply processingErrorText] ∧
      BotEvent.downloadStart ∉ (handleMediaFiles maxFileSize s).1 ∧
      BotEvent.storageUpload ∉ (handleMediaFiles maxFileSize s).1) := by
  refine ⟨by simp [is_file_too_large], ?_, rfl, ?_, ?_⟩
  · intro hgt
    have hb : is_file_too_large maxFileSize fileSize = true := by
      simp [is_file_too_large, hgt]
    refine ⟨?_, ?_, ?_⟩ <;> simp [handleDirectUpload, hb]
  · simp [handleMediaFiles]
  · simp [handleMediaFiles]

/-- Witness for C5 (amended): configured maximum 100, a 100-byte file is not
classified too large, a 101-byte file is rejected by the telethon handler
with the formatted limit in the message, and a concrete pyrogram run replies
only with the processing-error text. -/
theorem size_gate_spec_witness :
    (is_file_too_large 100 100 = false) ∧
    handleDirectUpload (fun n => toString n) 100 101 TgDownloadOutcome.ok =
      [TgEvent.editMessage ("❌ File too large! Maximum size is " ++ toString 100)] ∧
    (handleMediaFiles 100 ⟨101, true, DownloadOutcome.ok, UploadOutcome.success, true⟩).1 =
      [BotEvent.reply processingErrorText] := by
  have h := size_gate_spec (fun n => toString n) 100 101 TgDownloadOutcome.ok
    ⟨101, true, DownloadOutcome.ok, UploadOutcome.success, true⟩
  exact ⟨h.1, (h.2.1 (by decide)).1, h.2.2.1⟩

/-- Claim C8 (code bug): the cleanup the claim describes is dead code.  On a
concrete in-limit 10 MiB document whose download and upload are scripted to
succeed or fail, `handle_media_files` performs only the generic
processing-error reply — the `NameError` at bot.py line 421
(`self._format_size` in a module-level function) fires before the size check
and the download, so no staging file is ever created, no post-download
failure path can run, and the `os.remove` cleanup at lines 469-474, 500-505
and 510-514 is unreachable. -/
theorem media_handler_never_reaches_cleanup :
    handleMediaFiles (4 * 1024 ^ 3)
        ⟨10 * 1024 ^ 2, true, DownloadOutcome.ok, UploadOutcome.returnsFalse, true⟩ =
      ([BotEvent.reply processingErrorText], false) ∧
    BotEvent.downloadStart ∉
      (handleMediaFiles (4 * 1024 ^ 3)
        ⟨10 * 1024 ^ 2, true, DownloadOutcome.ok, UploadOutcome.returnsFalse, true⟩).1 ∧
    BotEvent.removeTemp ∉
      (handleMediaFiles (4 * 1024 ^ 3)
        ⟨10 * 1024 ^ 2, true, DownloadOutcome.ok, UploadOutcome.returnsFalse, true⟩).1 := by
  refine ⟨rfl, by simp [handleMediaFiles], by simp [handleMediaFiles]⟩

/-! ## Progress computation (claim C7)

`bot.py`, `ProgressTracker.update_progress` (lines 242-261):
`percentage = (current / total) * 100 if total > 0 else 0` and
`speed = current / elapsed if elapsed > 0 else 0`.
`ProgressTracker._format_time_remaining` (lines 297-312): returns
"Calculating..." when `current == 0 or elapsed == 0`, otherwise computes
`remaining = (total - current) * elapsed / current` and formats it.
Numbers are modelled as rationals; the h/m/s formatting of the remaining
time is cosmetic and collapsed into the `finite` constructor. -/

/-- The percentage computed by `update_progress` (bot.py line 248). -/
def update_percentage (current total : ℚ) : ℚ :=
  if total > 0 then current / total * 100 else 0

/-- The transfer speed computed by `update_progress` (bot.py line 261). -/
def update_speed (current elapsed : ℚ) : ℚ :=
  if elapsed > 0 then current / elapsed else 0

/-- Result of `_format_time_remaining`: the indeterminate placeholder
"Calculating..." or a computed remaining time. -/
inductive TimeRemaining where
  | calculating
  | finite (remaining : ℚ)
deriving DecidableEq

/-- Model of `ProgressTracker._format_time_remaining` (bot.py lines 297-312). -/
def format_time_remaining (current total elapsed : ℚ) : TimeRemaining :=
  if current = 0 ∨ elapsed = 0 then TimeRemaining.calculating
  else TimeRemaining.finite ((total - current) * elapsed / current)

/-- Claim C7: progress computation never divides by zero — the percentage is
the quotient only when the total is positive (and 0 otherwise), the
throughput is the quotient only when the elapsed time is positive (and 0
otherwise), and the remaining-time estimate is the indeterminate
"Calculating..." placeholder whenever bytes-transferred is 0 or elapsed time
is 0, the division being performed only when both are non-zero. -/
theorem progress_no_division_by_zero (current total elapsed : ℚ) :
    (total ≤ 0 → update_percentage current total = 0) ∧
    (0 < total → update_percentage current total = current / total * 100) ∧
    (elapsed ≤ 0 → update_speed current elapsed = 0) ∧
    (0 < elapsed → update_speed current elapsed = current / elapsed) ∧
    (current = 0 ∨ elapsed = 0 →
      format_time_remaining current total elapsed = TimeRemaining.calculating) ∧
    (current ≠ 0 → elapsed ≠ 0 →
      format_time_remaining current total elapsed =
        TimeRemaining.finite ((total - current) * elapsed / current)) := by
  refine ⟨?_, ?_, ?_, ?_, ?_, ?_⟩
  · intro h; simp [update_percentage, not_lt.mpr h]
  · intro h; simp [update_percentage, h]
  · intro h; simp [update_speed, not_lt.mpr h]
  · intro h; simp [update_speed, h]
  · intro h; simp [format_time_remaining, h]
  · intro h1 h2; simp [format_time_remaining, h1, h2]

/-- Witness for C7: with zero total the percentage is 0, with zero elapsed
time the speed is 0, and with zero bytes transferred the remaining time is
the placeholder; with all quantities positive the estimate is the computed
quotient. -/
theorem progress_no_division_by_zero_witness :
    update_percentage 5 0 = 0 ∧
    update_speed 5 0 = 0 ∧
    format_time_remaining 0 10 2 = TimeRemaining.calculating ∧
    format_time_remaining 4 10 2 = TimeRemaining.finite ((10 - 4) * 2 / 4) :=
  ⟨(progress_no_division_by_zero 5 0 1).1 le_rfl,
   (progress_no_division_by_zero 5 1 0).2.2.1 le_rfl,
   (progress_no_division_by_zero 0 10 2).2.2.2.2.1 (Or.inl rfl),
   (progress_no_division_by_zero 4 10 2).2.2.2.2.2 (by norm_num) (by norm_num)⟩

/-! ## Store query operations (claim C9)

`wasabi_client.py`, lines 111-186.  Each operation wraps its store call in
`try: ... except Exception as e: print(...); return None` (or `False` for
`delete_file`).  The underlying SDK call's outcome is the explicit input. -/

/-- The `get_object` response: the code returns `response['Body']` directly. -/
structure GetObjectResponse (α : Type) where
  Body : α
deriving Repr

/-- The `head_object` response fields read by `get_file_info`. -/
structure HeadObjectResponse where
  ContentLength : Nat
  LastModified : Nat
  ContentType : Option String
deriving DecidableEq, Repr

/-- The dict built by `get_file_info`
(`{'size': ..., 'last_modified': ..., 'content_type': ...}`). -/
structure FileInfo where
  size : Nat
  last_modified : Nat
  content_type : String
deriving DecidableEq, Repr

/-- Model of `download_to_stream` (lines 111-133): returns the response body, or
`None` when the store call raises. -/
def download_to_stream {α : Type} (getObject : Except String (GetObjectResponse α)) :
    Option α :=
  match getObject with
  | .ok response => some response.Body
  | .error _ => none

/-- Model of `generate_download_url` (lines 135-149): returns the presigned URL, or
`None` when signing raises. -/
def generate_download_url (presign : Except String String) : Option String :=
  match presign with
  | .ok url => some url
  | .error _ => none

/-- Model of `delete_file` (lines 151-170): returns `True` on success, `False` when
the store call raises. -/
def delete_file (deleteObject : Except String Unit) : Bool :=
  match deleteObject with
  | .ok _ => true
  | .error _ => false

/-- Model of `get_file_info` (lines 172-186): builds the info dict from the
`head_object` response (`ContentType` defaulting to "unknown"), or returns
`None` when the call raises. -/
def get_file_info (headObject : Except String HeadObjectResponse) : Option FileInfo :=
  match headObject with
  | .ok r => some ⟨r.ContentLength, r.LastModified, r.ContentType.getD "unknown"⟩
  | .error _ => none

/-- Claim C9: the store-client query operations never propagate an underlying
store or signing error to the caller — on any raised error
`download_to_stream`, `generate_download_url` and `get_file_info` return
`None` and `delete_file` returns `False`, while on success they return the
corresponding value, so a missing object and an unreachable store are
indistinguishable to the caller. -/
theorem query_ops_never_raise {α : Type} (e : String) (r : GetObjectResponse α)
    (url : String) (h : HeadObjectResponse) :
    download_to_stream (Except.error e : Except String (GetObjectResponse α)) = none ∧
    download_to_stream (Except.ok r) = some r.Body ∧
    generate_download_url (Except.error e) = none ∧
    generate_download_url (Except.ok url) = some url ∧
    delete_file (Except.error e) = false ∧
    delete_file (Except.ok ()) = true ∧
    get_file_info (Except.error e) = none ∧
    get_file_info (Except.ok h) =
      some ⟨h.ContentLength, h.LastModified, h.ContentType.getD "unknown"⟩ := by
  exact ⟨rfl, rfl, rfl, rfl, rfl, rfl, rfl, rfl⟩

/-! ## Configuration validation (claim C10)

`config.py`, `Config.validate_config` (lines 63-89) collects error strings:
missing Telegram credentials, non-numeric `API_ID`, partially-provided
Wasabi credentials (`any([...]) and not all([...])`), and
`MAX_DOWNLOAD_SIZE` above 10 GB; it raises `ValueError` with the joined
messages when the list is non-empty and returns `True` otherwise.
At import time (lines 112-130) the module runs `config.validate_config()`
inside `try: ... except ValueError: print(...); exit(1)` — a failure
terminates the process with exit code 1.

Python truthiness: an environment variable is *set* (truthy) when it is
present and non-empty; `API_ID`/`API_HASH`/`BOT_TOKEN` carry the
`os.environ.get(...) or "default"` fallback and are plain strings, the
Wasabi variables are `os.environ.get(...)` and may be absent (`None`). -/

/-- Truthiness of a plain Python string. -/
def truthyS (s : String) : Bool := !(s == "")

/-- Truthiness of an optional Python string (`None` and `""` are falsy). -/
def truthy : Option String → Bool
  | none => false
  | some s => !(s == "")

/-- Whether Python `int(s)` succeeds: optional surrounding whitespace, an
optional sign, then at least one digit.  (Underscore digit grouping is not
modelled; no claim depends on it.) -/
def pyIntOk (s : String) : Bool :=
  let t := s.data.dropWhile Char.isWhitespace
  let t := (t.reverse.dropWhile Char.isWhitespace).reverse
  let t := match t with
    | c :: rest => if c = '-' ∨ c = '+' then rest else c :: rest
    | [] => []
  !t.isEmpty && t.all Char.isDigit

/-- The configuration fields `validate_config` reads. -/
structure BotConfig where
  API_ID : String
  API_HASH : String
  BOT_TOKEN : String
  WASABI_ACCESS_KEY : Option String
  WASABI_SECRET_KEY : Option String
  WASABI_BUCKET : Option String
  MAX_DOWNLOAD_SIZE : Nat
deriving DecidableEq, Repr

/-- Model of `Config.validate_config` (config.py, lines 63-89): returns `True`, or the
`ValueError` message built from the collected errors. -/
def validate_config (c : BotConfig) : Except String Bool :=
  let errors : List String :=
    (if truthyS c.API_ID && truthyS c.API_HASH && truthyS c.BOT_TOKEN then []
      else ["Telegram API_ID, API_HASH, and BOT_TOKEN are required"]) ++
    (if pyIntOk c.API_ID then [] else ["API_ID must be a numeric value"]) ++
    (if (truthy c.WASABI_ACCESS_KEY || truthy c.WASABI_SECRET_KEY ||
            truthy c.WASABI_BUCKET) &&
        !(truthy c.WASABI_ACCESS_KEY && truthy c.WASABI_SECRET_KEY &&
            truthy c.WASABI_BUCKET)
      then ["All Wasabi credentials (ACCESS_KEY, SECRET_KEY, BUCKET) must be provided together"]
      else []) ++
    (if c.MAX_DOWNLOAD_SIZE > 10 * 1024 * 1024 * 1024 then
      ["MAX_DOWNLOAD_SIZE cannot exceed 10GB for Telegram limitations"] else [])
  if errors.isEmpty then Except.ok true
  else Except.error ("Configuration errors:\n- " ++ String.intercalate "\n- " errors)

/-- The import-time check (config.py, lines 112-130): a `ValueError` from
`validate_config` terminates the process with exit code 1; otherwise the
module continues with the validated config. -/
def importConfig (c : BotConfig) : Except Nat BotConfig :=
  match validate_config c with
  | .ok _ => .ok c
  | .error _ => .error 1

/-- Claim C10: `validate_config` accepts a configuration in which none of the
three Wasabi credentials is set (given the other checks pass), and raises
`ValueError` whenever at least one but not all three are set — regardless of
the other checks — in which case the import-time validation terminates the
process with exit code 1 instead of continuing with partial credentials. -/
theorem validate_config_wasabi_all_or_none (c : BotConfig) :
    ((truthy c.WASABI_ACCESS_KEY = false ∧ truthy c.WASABI_SECRET_KEY = false ∧
        truthy c.WASABI_BUCKET = false) →
      (truthyS c.API_ID && truthyS c.API_HASH && truthyS c.BOT_TOKEN) = true →
      pyIntOk c.API_ID = true →
      c.MAX_DOWNLOAD_SIZE ≤ 10 * 1024 * 1024 * 1024 →
      validate_config c = Except.ok true ∧ importConfig c = Except.ok c) ∧
    (((truthy c.WASABI_ACCESS_KEY || truthy c.WASABI_SECRET_KEY ||
          truthy c.WASABI_BUCKET) = true ∧
      (truthy c.WASABI_ACCESS_KEY && truthy c.WASABI_SECRET_KEY &&
          truthy c.WASABI_BUCKET) = false) →
      (∃ msg, validate_config c = Except.error msg) ∧
      importConfig c = Except.error 1) := by
  constructor
  · intro hnone htel hnum hsz
    have hsz' : ¬ c.MAX_DOWNLOAD_SIZE > 10 * 1024 * 1024 * 1024 := Nat.not_lt.mpr hsz
    have hval : validate_config c = Except.ok true := by
      simp only [validate_config, htel, hnum, hnone.1, hnone.2.1, hnone.2.2,
        if_neg hsz', if_pos]
      simp
    exact ⟨hval, by simp [importConfig, hval]⟩
  · rintro ⟨hany, hnall⟩
    have herr : ∃ msg, validate_config c = Except.error msg := by
      have hne : ∀ l1 l2 : List String,
          ¬ ((l1 ++ ["All Wasabi credentials (ACCESS_KEY, SECRET_KEY, BUCKET) must be provided together"] ++ l2).isEmpty = true) := by
        intro l1 l2 h
        simp at h
      simp only [validate_config, hany, hnall]
      simp only [Bool.and_true, Bool.not_false, if_true]
      exact ⟨_, if_neg (hne _ _)⟩
    obtain ⟨msg, hval⟩ := herr
    exact ⟨⟨msg, hval⟩, by simp [importConfig, hval]⟩

/-- Witness for C10: a configuration with no Wasabi credentials validates and
the import succeeds, while the same configuration with only an access key set
fails validation and the import terminates with exit code 1. -/
theorem validate_config_wasabi_all_or_none_witness :
    validate_config ⟨"12345", "hash", "token", none, none, none, 1000⟩ =
        Except.ok true ∧
    importConfig ⟨"12345", "hash", "token", some "AK", none, none, 1000⟩ =
        Except.error 1 :=
  ⟨((validate_config_wasabi_all_or_none
      ⟨"12345", "hash", "token", none, none, none, 1000⟩).1
      (by decide) (by decide) (by decide) (by decide)).1,
   ((validate_config_wasabi_all_or_none
      ⟨"12345", "hash", "token", some "AK", none, none, 1000⟩).2
      (by decide)).2⟩

end GDTOT
